import Mathlib

/-!
# task1: Vehicle / Wheeled / Motorised / Aircraft

A shallow embedding of `src/task1/vehicleDefinition.hpp` and `src/task1/main.cpp`.

* Standard output is the sequence of characters written so far (`OStream`); every
  function that can write takes the stream and returns the stream after it.
* `std::string` is `String`; the C++ `int` of `wheels` is an `Int` (the program only
  stores and prints it, no arithmetic is done on it, so every 32-bit value is an `Int`
  and nothing depends on the width).
* A class with a virtual base has two constructors in C++: the complete-object
  constructor, which first initialises the virtual base, and the base-object
  constructor, used when the class is a base of a more derived class, whose
  initialiser for the virtual base is ignored. Both are embedded.
* Member functions return the object after the call together with the stream after
  the call.
-/

namespace Task1

/-! ## Standard output -/

/-- The characters written to `std::cout` so far. -/
abbrev OStream := String

/-- Insertion of a string: `cout << s`. -/
def put (s : String) (cout : OStream) : OStream := cout ++ s

/-- Signed decimal rendering of an integer, as `operator<<(int)` prints it with the
default flags of `std::cout` (base ten, no plus sign, no grouping). -/
def showInt (i : Int) : String :=
  if i < 0 then "-" ++ Nat.repr i.natAbs else Nat.repr i.natAbs

/-- Insertion of an `int`: `cout << i`. -/
def putInt (i : Int) (cout : OStream) : OStream := cout ++ showInt i

/-- Insertion of `std::endl`: a newline (the flush does not change what was written). -/
def endl (cout : OStream) : OStream := cout ++ "\n"

/-- One output line: its text followed by the newline that ends it. -/
def line (s : String) : String := s ++ "\n"

/-- The text of a sequence of output lines, in order. -/
def lines : List String → String
  | [] => ""
  | l :: ls => line l ++ lines ls

/-! ## Data model -/

/-- Data of `class Vehicle` (vehicleDefinition.hpp:7-12). -/
structure Vehicle where
  make : String
  deriving DecidableEq, Repr

/-- A complete `Wheeled` object (vehicleDefinition.hpp:14-20): its virtual base
`Vehicle` and its own member `wheels`. -/
structure Wheeled where
  vehicle : Vehicle
  wheels : Int
  deriving DecidableEq, Repr

/-- A complete `Motorised` object (vehicleDefinition.hpp:22-32): its virtual base
`Vehicle` and its own member `typeOfEngine`. -/
structure Motorised where
  vehicle : Vehicle
  typeOfEngine : String
  deriving DecidableEq, Repr

/-- A complete `Aircraft` object (vehicleDefinition.hpp:34-44). Both bases inherit
`Vehicle` virtually, so the object has one `Vehicle` subobject, next to the members
of its `Wheeled` part and of its `Motorised` part. -/
structure Aircraft where
  vehicle : Vehicle
  wheels : Int
  typeOfEngine : String
  deriving DecidableEq, Repr

/-! ## Constructors -/

/-- Constructor `Vehicle::Vehicle(make) : make(make) {}`. -/
def Vehicle.ctor (make : String) (cout : OStream) : Vehicle × OStream :=
  (Vehicle.mk make, cout)

/-- Base-object constructor of `Wheeled`: the virtual base `v` is already built by the
most derived class, the initialiser `Vehicle(make)` is ignored, `wheels(wheels)` runs
and the body is empty. Returns the member it initialises. -/
def Wheeled.baseCtor (_v : Vehicle) (_make : String) (wheels : Int)
    (cout : OStream) : Int × OStream :=
  (wheels, cout)

/-- Complete-object constructor `Wheeled::Wheeled(make, wheels)`:
`Vehicle(make)`, then `wheels(wheels)`, empty body. -/
def Wheeled.ctor (make : String) (wheels : Int) (cout : OStream) : Wheeled × OStream :=
  let (v, cout) := Vehicle.ctor make cout
  let (w, cout) := Wheeled.baseCtor v make wheels cout
  (Wheeled.mk v w, cout)

/-- Base-object constructor of `Motorised`: the virtual base `v` is already built,
the initialiser `Vehicle(make)` is ignored, `typeOfEngine(typeOfEngine)` runs and the
body prints `Wroom!`. Returns the member it initialises. -/
def Motorised.baseCtor (_v : Vehicle) (_make : String) (typeOfEngine : String)
    (cout : OStream) : String × OStream :=
  let cout := cout |> put "Wroom!" |> endl
  (typeOfEngine, cout)

/-- Complete-object constructor `Motorised::Motorised(make, typeOfEngine)`:
`Vehicle(make)`, then `typeOfEngine(typeOfEngine)`, then the body. -/
def Motorised.ctor (make : String) (typeOfEngine : String) (cout : OStream) :
    Motorised × OStream :=
  let (v, cout) := Vehicle.ctor make cout
  let (e, cout) := Motorised.baseCtor v make typeOfEngine cout
  (Motorised.mk v e, cout)

/-- Constructor `Aircraft::Aircraft(make, wheels, typeOfEngine)`: the virtual base
`Vehicle(make)` first, then the direct bases in declaration order, `Wheeled` and
`Motorised`, as base objects; the body is empty. -/
def Aircraft.ctor (make : String) (wheels : Int) (typeOfEngine : String)
    (cout : OStream) : Aircraft × OStream :=
  let (v, cout) := Vehicle.ctor make cout
  let (w, cout) := Wheeled.baseCtor v make wheels cout
  let (e, cout) := Motorised.baseCtor v make typeOfEngine cout
  (Aircraft.mk v w e, cout)

/-! ## Base subobjects of an Aircraft -/

/-- The `Wheeled` base of an aircraft: its members and the shared virtual base. -/
def Aircraft.toWheeled (a : Aircraft) : Wheeled := Wheeled.mk a.vehicle a.wheels

/-- The `Motorised` base of an aircraft: its members and the shared virtual base. -/
def Aircraft.toMotorised (a : Aircraft) : Motorised := Motorised.mk a.vehicle a.typeOfEngine

/-- The aircraft whose `Motorised` base (with the virtual base it refers to) is `m`
and whose other members are those of `a`. -/
def Aircraft.withMotorised (a : Aircraft) (m : Motorised) : Aircraft :=
  Aircraft.mk m.vehicle a.wheels m.typeOfEngine

/-! ## Member functions -/

/-- Accessor `Wheeled::getWheels() const`. -/
def Wheeled.getWheels (self : Wheeled) : Int := self.wheels

/-- Accessor `getWheels` called on an aircraft (inherited from `Wheeled`). -/
def Aircraft.getWheels (self : Aircraft) : Int := self.toWheeled.getWheels

/-- Member `Motorised::switchOn() const` (vehicleDefinition.hpp:29-31). -/
def Motorised.switchOn (self : Motorised) (cout : OStream) : Motorised × OStream :=
  let cout := cout |> put "The " |> put self.typeOfEngine |> put " engine is now on." |> endl
  (self, cout)

/-- Member `switchOn` called on an aircraft: the inherited member runs on the
`Motorised` base. -/
def Aircraft.switchOn (self : Aircraft) (cout : OStream) : Aircraft × OStream :=
  let (m, cout) := Motorised.switchOn self.toMotorised cout
  (self.withMotorised m, cout)

/-- Member `Aircraft::takeOff() const` (vehicleDefinition.hpp:38-43). -/
def Aircraft.takeOff (self : Aircraft) (cout : OStream) : Aircraft × OStream :=
  let cout := cout |> put "Aircraft preparing to take off" |> endl
  let cout := cout |> put "Make: " |> put self.vehicle.make |> endl
  let cout := cout |> put "Wheels: " |> putInt self.wheels |> endl
  let cout := cout |> put "Engine type: " |> put self.typeOfEngine |> endl
  (self, cout)

/-- Calling a member function `n` times in a row on the same object. -/
def callTimes {σ : Type} (f : σ → OStream → σ × OStream) : Nat → σ → OStream → σ × OStream
  | 0, self, cout => (self, cout)
  | n + 1, self, cout =>
    let (self, cout) := f self cout
    callTimes f n self cout

/-! ## Entry point -/

/-- Function `main` (main.cpp:4-22): the exit status and the output after the run. -/
def main (cout : OStream) : Int × OStream :=
  let cout := cout |> put "Creating a motorised vehicle..." |> endl
  let (ford, cout) := Motorised.ctor "Ford" "petrol" cout
  let cout := cout |> put "Created a motorised vehicle: " |> put ford.vehicle.make |> endl
  let cout := cout |> put "----------------------------------------" |> endl
  let cout := cout |> put "Creating an aircraft..." |> endl
  let (boeing, cout) := Aircraft.ctor "Boeing" 3 "kerosene" cout
  let cout := cout |> put "Created an aircraft: " |> put boeing.vehicle.make |> endl
  let cout := cout |> put "----------------------------------------" |> endl
  let (boeing, cout) := Aircraft.switchOn boeing cout
  let cout := cout |> put "" |> endl
  let (_, cout) := Aircraft.takeOff boeing cout
  (0, cout)

/-! ## Auxiliary facts -/

theorem lines_nil : lines [] = "" := rfl

theorem lines_cons (l : String) (ls : List String) : lines (l :: ls) = line l ++ lines ls := rfl

theorem string_append_empty (s : String) : s ++ "" = s := by
  apply String.ext
  simp

theorem showInt_samples :
    showInt 3 = "3" ∧ showInt 0 = "0" ∧ showInt (-1) = "-1" ∧ showInt 18 = "18"
    ∧ showInt 2147483647 = "2147483647" ∧ showInt (-2147483648) = "-2147483648" := by
  decide

theorem lines_replicate_succ (l : String) (n : Nat) :
    lines (List.replicate (n + 1) l) = line l ++ lines (List.replicate n l) := rfl

theorem Motorised_ctor_eq (make typeOfEngine : String) (cout : OStream) :
    Motorised.ctor make typeOfEngine cout
      = (Motorised.mk (Vehicle.mk make) typeOfEngine, cout ++ "Wroom!\n") := by
  simp [Motorised.ctor, Vehicle.ctor, Motorised.baseCtor, put, endl, String.append_assoc]

theorem Aircraft_ctor_eq (make : String) (wheels : Int) (typeOfEngine : String)
    (cout : OStream) :
    Aircraft.ctor make wheels typeOfEngine cout
      = (Aircraft.mk (Vehicle.mk make) wheels typeOfEngine, cout ++ "Wroom!\n") := by
  simp [Aircraft.ctor, Vehicle.ctor, Wheeled.baseCtor, Motorised.baseCtor, put, endl,
    String.append_assoc]

theorem Motorised_switchOn_eq (m : Motorised) (cout : OStream) :
    Motorised.switchOn m cout
      = (m, cout ++ line ("The " ++ m.typeOfEngine ++ " engine is now on.")) := by
  simp [Motorised.switchOn, put, endl, line, String.append_assoc]

theorem Aircraft_switchOn_eq (a : Aircraft) (cout : OStream) :
    Aircraft.switchOn a cout
      = (a, cout ++ line ("The " ++ a.typeOfEngine ++ " engine is now on.")) := by
  simp [Aircraft.switchOn, Motorised_switchOn_eq, Aircraft.toMotorised,
    Aircraft.withMotorised]

theorem Aircraft_takeOff_eq (a : Aircraft) (cout : OStream) :
    Aircraft.takeOff a cout
      = (a, cout ++ lines ["Aircraft preparing to take off",
                           "Make: " ++ a.vehicle.make,
                           "Wheels: " ++ showInt a.wheels,
                           "Engine type: " ++ a.typeOfEngine]) := by
  simp only [Aircraft.takeOff, put, putInt, endl, lines, line, String.append_assoc,
    string_append_empty]

theorem callTimes_const_line {σ : Type} (f : σ → OStream → σ × OStream) (self : σ)
    (l : String) (hf : ∀ cout, f self cout = (self, cout ++ line l)) (n : Nat) :
    ∀ cout, callTimes f n self cout = (self, cout ++ lines (List.replicate n l)) := by
  induction n with
  | zero =>
    intro cout
    simp [callTimes, lines_nil, string_append_empty]
  | succ k ih =>
    intro cout
    simp [callTimes, hf, ih, lines_replicate_succ, String.append_assoc]

theorem main_eq (cout : OStream) :
    main cout = (0, cout ++ lines
      ["Creating a motorised vehicle...",
       "Wroom!",
       "Created a motorised vehicle: Ford",
       "----------------------------------------",
       "Creating an aircraft...",
       "Wroom!",
       "Created an aircraft: Boeing",
       "----------------------------------------",
       "The kerosene engine is now on.",
       "",
       "Aircraft preparing to take off",
       "Make: Boeing",
       "Wheels: 3",
       "Engine type: kerosene"]) := by
  have h3 : Nat.repr 3 = "3" := rfl
  simp [main, Motorised_ctor_eq, Aircraft_ctor_eq, Aircraft_switchOn_eq,
    Aircraft_takeOff_eq, put, endl, showInt, lines, line, h3, String.append_assoc]

/-! ## The entry point -/

/-- Claim C1: run from an empty output, `main` writes exactly the fourteen lines
below, in this order, each ended by a newline, and nothing else. -/
theorem main_output_from_empty :
    (main "").2 = lines
      ["Creating a motorised vehicle...",
       "Wroom!",
       "Created a motorised vehicle: Ford",
       "----------------------------------------",
       "Creating an aircraft...",
       "Wroom!",
       "Created an aircraft: Boeing",
       "----------------------------------------",
       "The kerosene engine is now on.",
       "",
       "Aircraft preparing to take off",
       "Make: Boeing",
       "Wheels: 3",
       "Engine type: kerosene"]
    ∧ "----------------------------------------".length = 40 := by
  refine ⟨?_, by decide⟩
  rw [main_eq]
  apply String.ext
  simp

/-- Claim C10: `main` is a total straight-line function and its exit status is 0,
whatever was written to the output before it runs. -/
theorem main_exit_status_zero (cout : OStream) : (main cout).1 = 0 := by
  rw [main_eq]

/-! ## Aircraft.takeOff -/

/-- Claim C2: `takeOff` on the aircraft built from `(make, wheels, engineType)` appends
exactly four lines: the fixed heading, then `Make: ` with the make, `Wheels: ` with the
signed decimal rendering of the wheel count, and `Engine type: ` with the engine type,
all three as supplied to the constructor. -/
theorem takeOff_reports_constructor_arguments (make : String) (wheels : Int)
    (engineType : String) (cout0 cout : OStream) :
    (Aircraft.takeOff (Aircraft.ctor make wheels engineType cout0).1 cout).2
      = cout ++ lines ["Aircraft preparing to take off",
                       "Make: " ++ make,
                       "Wheels: " ++ showInt wheels,
                       "Engine type: " ++ engineType] := by
  rw [Aircraft_ctor_eq, Aircraft_takeOff_eq]

/-- Claim C9: `takeOff` leaves the aircraft as it was (make, wheels and engine type
unchanged), and a second call right after the first appends the same four lines
again. -/
theorem takeOff_no_mutation_and_repeatable (a : Aircraft) (cout : OStream) :
    (Aircraft.takeOff a cout).1 = a
    ∧ (Aircraft.takeOff a cout).1.vehicle.make = a.vehicle.make
    ∧ (Aircraft.takeOff a cout).1.wheels = a.wheels
    ∧ (Aircraft.takeOff a cout).1.typeOfEngine = a.typeOfEngine
    ∧ (Aircraft.takeOff a cout).2
        = cout ++ lines ["Aircraft preparing to take off",
                         "Make: " ++ a.vehicle.make,
                         "Wheels: " ++ showInt a.wheels,
                         "Engine type: " ++ a.typeOfEngine]
    ∧ (Aircraft.takeOff (Aircraft.takeOff a cout).1 (Aircraft.takeOff a cout).2).2
        = (Aircraft.takeOff a cout).2
            ++ lines ["Aircraft preparing to take off",
                      "Make: " ++ a.vehicle.make,
                      "Wheels: " ++ showInt a.wheels,
                      "Engine type: " ++ a.typeOfEngine] := by
  simp only [Aircraft_takeOff_eq, and_self]

/-! ## Construction -/

/-- Claim C3: constructing a `Motorised` with `(make, engineType)` appends the single
line `Wroom!` and nothing else, and the object built holds the make and the engine
type as given. -/
theorem Motorised_construction_emits_wroom_once (make engineType : String)
    (cout : OStream) :
    (Motorised.ctor make engineType cout).2 = cout ++ lines ["Wroom!"]
    ∧ (Motorised.ctor make engineType cout).1.vehicle.make = make
    ∧ (Motorised.ctor make engineType cout).1.typeOfEngine = engineType := by
  rw [Motorised_ctor_eq]
  exact ⟨rfl, rfl, rfl⟩

/-- Claim C6: constructing an `Aircraft` appends the single line `Wroom!`: the
construction of its `Vehicle` base and of its `Wheeled` base write nothing, and the
construction of its `Motorised` base, which runs once, writes that line. -/
theorem Aircraft_construction_emits_wroom_once (make : String) (wheels : Int)
    (engineType : String) (cout : OStream) :
    (Aircraft.ctor make wheels engineType cout).2 = cout ++ lines ["Wroom!"]
    ∧ (Vehicle.ctor make cout).2 = cout
    ∧ (∀ v : Vehicle, (Wheeled.baseCtor v make wheels cout).2 = cout)
    ∧ (∀ v : Vehicle,
        (Motorised.baseCtor v make engineType cout).2 = cout ++ lines ["Wroom!"]) := by
  refine ⟨?_, rfl, fun _ => rfl, fun _ => ?_⟩
  · rw [Aircraft_ctor_eq]
    rfl
  · simp only [Motorised.baseCtor, put, endl, lines, line, String.append_assoc,
      string_append_empty]

/-- Claim C5: the aircraft built from `(make, wheels, engineType)` has one `Vehicle`:
the vehicle seen through its `Wheeled` base is the vehicle seen through its
`Motorised` base, so both show the same make, and that make is the constructor
argument. -/
theorem Aircraft_shares_one_vehicle (make : String) (wheels : Int) (engineType : String)
    (cout : OStream) :
    (Aircraft.ctor make wheels engineType cout).1.toWheeled.vehicle
      = (Aircraft.ctor make wheels engineType cout).1.toMotorised.vehicle
    ∧ (Aircraft.ctor make wheels engineType cout).1.toWheeled.vehicle.make
      = (Aircraft.ctor make wheels engineType cout).1.toMotorised.vehicle.make
    ∧ (Aircraft.ctor make wheels engineType cout).1.toWheeled.vehicle.make = make
    ∧ (Aircraft.ctor make wheels engineType cout).1.toMotorised.vehicle.make = make := by
  rw [Aircraft_ctor_eq]
  exact ⟨rfl, rfl, rfl, rfl⟩

/-- Claim C7: constructing a `Wheeled` with any make and any integer wheel count, zero
and negative ones included, returns an object, writes nothing, and `getWheels` on it
gives back that very count. -/
theorem Wheeled_construction_stores_any_count (make : String) (wheels : Int)
    (cout : OStream) :
    (Wheeled.ctor make wheels cout).2 = cout
    ∧ (Wheeled.ctor make wheels cout).1.getWheels = wheels
    ∧ (Wheeled.ctor make wheels cout).1.vehicle.make = make := by
  exact ⟨rfl, rfl, rfl⟩

/-! ## Sign of the wheel count -/

/-- Claim C8, as stated, fails: a `Wheeled` and an `Aircraft` built with the wheel
count `-1` report `-1`, which is negative. -/
theorem getWheels_can_be_negative :
    (Wheeled.ctor "Ford" (-1) "").1.getWheels = -1
    ∧ ¬ (0 ≤ (Wheeled.ctor "Ford" (-1) "").1.getWheels)
    ∧ ¬ (0 ≤ (Aircraft.ctor "Boeing" (-1) "kerosene" "").1.getWheels) := by
  refine ⟨rfl, ?_, ?_⟩ <;> decide

/-- Claim C8, amended: `getWheels` on a constructed `Wheeled` or `Aircraft` returns the
count given to the constructor, so it is non-negative exactly when that count is. -/
theorem getWheels_nonneg_iff (make : String) (wheels : Int) (engineType : String)
    (cout : OStream) :
    (Wheeled.ctor make wheels cout).1.getWheels = wheels
    ∧ (Aircraft.ctor make wheels engineType cout).1.getWheels = wheels
    ∧ (0 ≤ (Wheeled.ctor make wheels cout).1.getWheels ↔ 0 ≤ wheels)
    ∧ (0 ≤ (Aircraft.ctor make wheels engineType cout).1.getWheels ↔ 0 ≤ wheels) := by
  rw [Aircraft_ctor_eq]
  exact ⟨rfl, rfl, Iff.rfl, Iff.rfl⟩

/-! ## Motorised.switchOn -/

/-- Claim C4: `switchOn` called `n` times in a row, on a `Motorised` or on an
`Aircraft` with engine type `e`, appends `n` copies of the line
`The e engine is now on.` and leaves the object (make, wheels, engine type) as it
was. -/
theorem switchOn_repeated (m : Motorised) (a : Aircraft) (n : Nat) (cout : OStream) :
    callTimes Motorised.switchOn n m cout
      = (m, cout ++ lines (List.replicate n ("The " ++ m.typeOfEngine ++ " engine is now on.")))
    ∧ callTimes Aircraft.switchOn n a cout
      = (a, cout ++ lines (List.replicate n ("The " ++ a.typeOfEngine ++ " engine is now on."))) :=
  ⟨callTimes_const_line Motorised.switchOn m _ (Motorised_switchOn_eq m) n cout,
   callTimes_const_line Aircraft.switchOn a _ (Aircraft_switchOn_eq a) n cout⟩

end Task1
